import Mathlib

/-!
Verification of the RewardPicker widget (src/src/App.tsx) as a shallow
embedding: the component state is a record, each event handler is a pure
state transition, and the history-persistence effect (the useEffect keyed
on `history`) is applied after every handler that calls `setHistory`,
giving the settled state at the end of each event-loop turn.
-/

/-- Static reward catalog entry (type `Reward` in App.tsx). -/
structure Reward where
  id : String
  title : String
  description : String
  icon : String
deriving DecidableEq, Repr

/-- One recorded draw (type `HistoryEntry` in App.tsx). `timestamp` is epoch
milliseconds; JS numbers produced by `Date.now()` are nonnegative integers. -/
structure HistoryEntry where
  id : String
  cardNumber : Nat
  rewardTitle : String
  rewardIcon : String
  timestamp : Nat
deriving DecidableEq, Repr

/-- The fixed localStorage key (`HISTORY_STORAGE_KEY` in App.tsx). -/
def HISTORY_STORAGE_KEY : String := "reward-history"

/-- The history cap (`HISTORY_LIMIT` in App.tsx). -/
def HISTORY_LIMIT : Nat := 10

/-- The four-entry reward catalog (`rewards` in App.tsx), fixed at build time. -/
def rewards : List Reward :=
  [ { id := "mug", title := "Devsmith Mug",
      description := "Limited ceramic mug for your next caffeine boost.",
      icon := "☕️" },
    { id := "coupon", title := "Odoo Development Coupon",
      description := "Apply this coupon toward premium Odoo build time.",
      icon := "🎟️" },
    { id := "stickers", title := "Sticker Set",
      description := "A playful sticker pack to brighten every device.",
      icon := "✨" },
    { id := "mystery", title := "Mystery Add-on",
      description := "An extra surprise that appears in your inbox.",
      icon := "🎁" } ]

/-- `rewards[Math.floor(Math.random() * rewards.length)]`: the host guarantees
the sampled index lies in [0,3], so it is modelled as `Fin 4`. -/
def rewardAt (i : Fin 4) : Reward :=
  rewards.get (Fin.cast (by rfl) i)

/-- JSON values, as produced by the host JSON.parse. Numbers are modelled as
integers, which covers every value this component ever serializes. -/
inductive Json where
  | null
  | bool (b : Bool)
  | num (n : Int)
  | str (s : String)
  | arr (xs : List Json)
  | obj (fields : List (String × Json))

/-- The string stored under the key, viewed through JSON.parse: either a
string JSON.parse throws on, or one that parses to a JSON value. The
serializer JSON.stringify followed by JSON.parse recovers the same JSON
value, so writes are modelled directly as `parsed` payloads. -/
inductive Stored where
  | malformed (s : String)
  | parsed (j : Json)

/-- JSON encoding of one history entry, with the field order of the object
literal in `handleDraw`. -/
def encodeEntry (e : HistoryEntry) : Json :=
  .obj [ ("id", .str e.id),
         ("cardNumber", .num (Int.ofNat e.cardNumber)),
         ("rewardTitle", .str e.rewardTitle),
         ("rewardIcon", .str e.rewardIcon),
         ("timestamp", .num (Int.ofNat e.timestamp)) ]

/-- JSON encoding of the history list (`JSON.stringify(history)` payload). -/
def encodeHistory (h : List HistoryEntry) : Json :=
  .arr (h.map encodeEntry)

/-- Strict decoder for one entry: an observer used to state which JSON values
denote well-formed history entries. The component itself never validates. -/
def decodeEntry : Json → Option HistoryEntry
  | .obj [ ("id", .str i),
           ("cardNumber", .num (Int.ofNat n)),
           ("rewardTitle", .str t),
           ("rewardIcon", .str ic),
           ("timestamp", .num (Int.ofNat ts)) ] =>
      some { id := i, cardNumber := n, rewardTitle := t,
             rewardIcon := ic, timestamp := ts }
  | _ => none

/-- Decode a list of JSON values as history entries, failing if any fails. -/
def decodeEntries : List Json → Option (List HistoryEntry)
  | [] => some []
  | j :: js =>
    match decodeEntry j, decodeEntries js with
    | some e, some es => some (e :: es)
    | _, _ => none

/-- Decode a JSON value as a history list: an observer saying the value is
shaped as an array of well-formed HistoryEntry records. -/
def decodeHistory : Json → Option (List HistoryEntry)
  | .arr js => decodeEntries js
  | _ => none

/-- The useState initializer for `history` (App.tsx lines 79-88), at the JSON
level: a missing key yields the empty array, a string JSON.parse throws on is
caught and yields the empty array, and any parsed JSON value is adopted as-is
by the unchecked cast `JSON.parse(stored) as HistoryEntry[]`. -/
def initHistory : Option Stored → Json
  | none => .arr []
  | some (.malformed _) => .arr []
  | some (.parsed j) => j

/-- The settled component state at the end of an event-loop turn. `store` is
the value at HISTORY_STORAGE_KEY in the external store (`none` = key absent). -/
structure AppState where
  selectedCard : Option Nat
  currentReward : Option Reward
  statusMessage : String
  isDrawing : Bool
  isModalOpen : Bool
  history : List HistoryEntry
  store : Option Stored

/-- Environment consumed by one draw: the sampled catalog index, the fresh id
string, and the Date.now() reading. -/
structure DrawEnv where
  roll : Fin 4
  freshId : String
  now : Nat

/-- The persistence useEffect (App.tsx lines 92-95): whenever `history` has a
new reference, write its serialization to the store. -/
def persistEffect (s : AppState) : AppState :=
  { s with store := some (.parsed (encodeHistory s.history)) }

/-- The HistoryEntry constructed inside `handleDraw` for 0-based selected
card `i`: 1-indexed card number, drawn reward title and icon. -/
def drawEntry (env : DrawEnv) (i : Nat) : HistoryEntry :=
  { id := env.freshId
    cardNumber := i + 1
    rewardTitle := (rewardAt env.roll).title
    rewardIcon := (rewardAt env.roll).icon
    timestamp := env.now }

/-- `handleDraw` (App.tsx lines 110-133). With no selection, only the status
message changes. Otherwise the reward is sampled, the entry is prepended and
the list sliced to HISTORY_LIMIT, the modal opens; isDrawing is set true then
back to false within the same batch, so it settles at false. -/
def handleDraw (env : DrawEnv) (s : AppState) : AppState :=
  match s.selectedCard with
  | none => { s with statusMessage := "Choose a card first to start the draw." }
  | some selected =>
      { s with
        isDrawing := false
        currentReward := some (rewardAt env.roll)
        statusMessage := "You opened Card " ++ toString (selected + 1) ++ "!"
        history := (drawEntry env selected :: s.history).take HISTORY_LIMIT
        isModalOpen := true }

/-- One draw event, settled: the handler plus the persistence effect, which
runs exactly when the handler called setHistory (the selected branch). -/
def drawStep (env : DrawEnv) (s : AppState) : AppState :=
  match s.selectedCard with
  | none => handleDraw env s
  | some _ => persistEffect (handleDraw env s)

/-- `handleCardSelect` (App.tsx lines 97-108): clicking the selected card
again invokes `handleDraw` directly; otherwise select the card, clear the
current reward, and prompt. -/
def handleCardSelect (env : DrawEnv) (i : Nat) (s : AppState) : AppState :=
  if s.selectedCard = some i then handleDraw env s
  else
    { s with
      selectedCard := some i
      currentReward := none
      statusMessage := "Click again to open, or choose another card." }

/-- One card-click event, settled: the persistence effect runs exactly when
the click fell on the already-selected card (so a draw appended an entry). -/
def selectStep (env : DrawEnv) (i : Nat) (s : AppState) : AppState :=
  if s.selectedCard = some i then persistEffect (handleCardSelect env i s)
  else handleCardSelect env i s

/-- `handleCloseModal` (App.tsx lines 135-137). No setHistory call, so the
persistence effect does not run: this is also the settled step. -/
def handleCloseModal (s : AppState) : AppState :=
  { s with isModalOpen := false }

/-- One close-modal event, settled. -/
def closeStep (s : AppState) : AppState :=
  handleCloseModal s

/-- `handleClearHistory` (App.tsx lines 139-144): empty the history and
remove the persisted key. -/
def handleClearHistory (s : AppState) : AppState :=
  { s with history := [], store := none }

/-- One clear-history event, settled: the handler removes the key, but the
persistence effect then fires on the history change and writes the
serialized empty list back under the key. -/
def clearStep (s : AppState) : AppState :=
  persistEffect (handleClearHistory s)

/-- The component state right after the useState initializers run, given the
in-memory history value `h` and the store content `stored`. -/
def initialState (h : List HistoryEntry) (stored : Option Stored) : AppState :=
  { selectedCard := none
    currentReward := none
    statusMessage := "Pick one of the four cards below to begin."
    isDrawing := false
    isModalOpen := false
    history := h
    store := stored }

/-- States reachable in a session: mount (the initializer adopts the stored
JSON, which here is assumed to be a well-formed entry array so the in-memory
value is a typed list, and the mount effect persists it), followed by any
sequence of settled events. -/
inductive Reaches : AppState → Prop where
  | mount (stored : Option Stored) (h : List HistoryEntry) :
      decodeHistory (initHistory stored) = some h →
      Reaches (persistEffect (initialState h stored))
  | select (env : DrawEnv) (i : Nat) (s : AppState) :
      Reaches s → Reaches (selectStep env i s)
  | draw (env : DrawEnv) (s : AppState) :
      Reaches s → Reaches (drawStep env s)
  | close (s : AppState) :
      Reaches s → Reaches (closeStep s)
  | clear (s : AppState) :
      Reaches s → Reaches (clearStep s)

-- Basic facts about the JSON round trip.

/-- Decoding inverts encoding on a single entry. -/
theorem decodeEntry_encodeEntry (e : HistoryEntry) :
    decodeEntry (encodeEntry e) = some e := rfl

/-- Decoding inverts encoding on a list of entries. -/
theorem decodeEntries_map_encodeEntry (l : List HistoryEntry) :
    decodeEntries (l.map encodeEntry) = some l := by
  induction l with
  | nil => rfl
  | cons e es ih =>
      simp [List.map, decodeEntries, decodeEntry_encodeEntry, ih]

/-- Decoding inverts encoding on the whole history payload. -/
theorem decodeHistory_encodeHistory (l : List HistoryEntry) :
    decodeHistory (encodeHistory l) = some l := by
  simp [decodeHistory, encodeHistory, decodeEntries_map_encodeEntry]

/-- The sampled reward is always one of the four catalog entries. -/
theorem rewardAt_mem (i : Fin 4) : rewardAt i ∈ rewards := by
  revert i; decide

-- Claim theorems.

/-- C4: with a card selected, a draw sets the current reward to one of the 4
catalog entries, prepends exactly one new HistoryEntry carrying the 1-indexed
selected card number and the drawn reward title and icon, and opens the
modal. -/
theorem draw_selected_effects (env : DrawEnv) (i : Nat) (s : AppState)
    (h : s.selectedCard = some i) :
    (drawStep env s).currentReward = some (rewardAt env.roll) ∧
    rewardAt env.roll ∈ rewards ∧
    (drawStep env s).history = drawEntry env i :: s.history.take 9 ∧
    (drawEntry env i).cardNumber = i + 1 ∧
    (drawEntry env i).rewardTitle = (rewardAt env.roll).title ∧
    (drawEntry env i).rewardIcon = (rewardAt env.roll).icon ∧
    (drawStep env s).isModalOpen = true := by
  refine ⟨?_, rewardAt_mem env.roll, ?_, rfl, rfl, rfl, ?_⟩ <;>
    simp [drawStep, handleDraw, persistEffect, h, HISTORY_LIMIT,
      show (10 : Nat) = 9 + 1 from rfl, List.take_succ_cons]

/-- A concrete session state with card 1 (0-indexed 0) selected and an empty
history, used to instantiate the hypothesis-bearing theorems. -/
def selectedState : AppState :=
  { selectedCard := some 0
    currentReward := none
    statusMessage := "Click again to open, or choose another card."
    isDrawing := false
    isModalOpen := false
    history := []
    store := none }

/-- C4 witness at a concrete selected state. -/
theorem draw_selected_effects_witness :
    (drawStep ⟨2, "id1", 5⟩ selectedState).currentReward = some (rewardAt 2) ∧
    rewardAt 2 ∈ rewards ∧
    (drawStep ⟨2, "id1", 5⟩ selectedState).history
        = drawEntry ⟨2, "id1", 5⟩ 0 :: selectedState.history.take 9 ∧
    (drawEntry ⟨2, "id1", 5⟩ 0).cardNumber = 0 + 1 ∧
    (drawEntry ⟨2, "id1", 5⟩ 0).rewardTitle = (rewardAt 2).title ∧
    (drawEntry ⟨2, "id1", 5⟩ 0).rewardIcon = (rewardAt 2).icon ∧
    (drawStep ⟨2, "id1", 5⟩ selectedState).isModalOpen = true :=
  draw_selected_effects ⟨2, "id1", 5⟩ 0 selectedState rfl

/-- C5: with no card selected, a draw only sets the status message to the
choose-a-card instruction; history, current reward, selection, modal flag and
the external store are all unchanged. -/
theorem draw_unselected_noop (env : DrawEnv) (s : AppState)
    (h : s.selectedCard = none) :
    drawStep env s
        = { s with statusMessage := "Choose a card first to start the draw." } ∧
    (drawStep env s).history = s.history ∧
    (drawStep env s).currentReward = s.currentReward ∧
    (drawStep env s).isModalOpen = s.isModalOpen ∧
    (drawStep env s).store = s.store := by
  refine ⟨?_, ?_, ?_, ?_, ?_⟩ <;> simp [drawStep, handleDraw, h]

/-- C5 witness at the concrete freshly-mounted state. -/
theorem draw_unselected_noop_witness :
    drawStep ⟨0, "id2", 7⟩ (initialState [] none)
        = { initialState [] none with
            statusMessage := "Choose a card first to start the draw." } ∧
    (drawStep ⟨0, "id2", 7⟩ (initialState [] none)).history
        = (initialState [] none).history ∧
    (drawStep ⟨0, "id2", 7⟩ (initialState [] none)).currentReward
        = (initialState [] none).currentReward ∧
    (drawStep ⟨0, "id2", 7⟩ (initialState [] none)).isModalOpen
        = (initialState [] none).isModalOpen ∧
    (drawStep ⟨0, "id2", 7⟩ (initialState [] none)).store
        = (initialState [] none).store :=
  draw_unselected_noop ⟨0, "id2", 7⟩ (initialState [] none) rfl

/-- C7: selecting card i while no card or a different card is selected moves
the selection to i, clears the current reward, and sets a fixed non-empty
guidance message. -/
theorem select_new_card (env : DrawEnv) (i : Nat) (s : AppState)
    (hi : i < 4) (h : s.selectedCard ≠ some i) :
    (selectStep env i s).selectedCard = some i ∧
    (selectStep env i s).currentReward = none ∧
    (selectStep env i s).statusMessage
        = "Click again to open, or choose another card." ∧
    (selectStep env i s).statusMessage ≠ "" := by
  refine ⟨?_, ?_, ?_, ?_⟩ <;>
    simp [selectStep, handleCardSelect, h]

/-- C7 witness: selecting card 3 (index 2) from the freshly-mounted state. -/
theorem select_new_card_witness :
    (selectStep ⟨0, "id3", 9⟩ 2 (initialState [] none)).selectedCard = some 2 ∧
    (selectStep ⟨0, "id3", 9⟩ 2 (initialState [] none)).currentReward = none ∧
    (selectStep ⟨0, "id3", 9⟩ 2 (initialState [] none)).statusMessage
        = "Click again to open, or choose another card." ∧
    (selectStep ⟨0, "id3", 9⟩ 2 (initialState [] none)).statusMessage ≠ "" :=
  select_new_card ⟨0, "id3", 9⟩ 2 (initialState [] none) (by decide)
    (by simp [initialState])

/-- C9: closing the modal sets the modal flag to false, is idempotent, and
leaves selection, current reward, status message, history and the external
store unchanged. -/
theorem close_modal_idempotent_frame (s : AppState) :
    (closeStep s).isModalOpen = false ∧
    closeStep (closeStep s) = closeStep s ∧
    (closeStep s).selectedCard = s.selectedCard ∧
    (closeStep s).currentReward = s.currentReward ∧
    (closeStep s).statusMessage = s.statusMessage ∧
    (closeStep s).history = s.history ∧
    (closeStep s).store = s.store :=
  ⟨rfl, rfl, rfl, rfl, rfl, rfl, rfl⟩

/-- C10: a draw with a card selected keeps that card selected and leaves the
drawing-in-progress flag false once the operation settles. -/
theorem draw_preserves_selection (env : DrawEnv) (i : Nat) (s : AppState)
    (h : s.selectedCard = some i) :
    (drawStep env s).selectedCard = some i ∧
    (drawStep env s).isDrawing = false := by
  constructor <;> simp [drawStep, handleDraw, persistEffect, h]

/-- C10 witness at a concrete selected state. -/
theorem draw_preserves_selection_witness :
    (drawStep ⟨1, "id4", 11⟩ selectedState).selectedCard = some 0 ∧
    (drawStep ⟨1, "id4", 11⟩ selectedState).isDrawing = false :=
  draw_preserves_selection ⟨1, "id4", 11⟩ 0 selectedState rfl

/-- A concrete draw environment used in counterexamples. -/
def envA : DrawEnv := ⟨0, "idA", 100⟩

/-- C6 counterexample: from a state with card 1 (index 0) already selected
and empty history, clicking the selected card performs one draw (history
length 1), while clicking it and then invoking draw performs two draws
(history length 2), so the two end states differ. -/
theorem select_selected_counterexample :
    selectStep envA 0 selectedState
      ≠ drawStep envA (selectStep envA 0 selectedState) := by
  intro h
  have hlen := congrArg (fun t => t.history.length) h
  have hne : (selectStep envA 0 selectedState).history.length
      ≠ (drawStep envA (selectStep envA 0 selectedState)).history.length := by
    decide
  exact hne hlen

/-- C6 amended: from a state with card i already selected, clicking card i
produces exactly the end state of one draw invocation. -/
theorem select_selected_is_draw (env : DrawEnv) (i : Nat) (s : AppState)
    (h : s.selectedCard = some i) :
    selectStep env i s = drawStep env s := by
  simp [selectStep, handleCardSelect, drawStep, h]

/-- C6 witness at a concrete already-selected state. -/
theorem select_selected_is_draw_witness :
    selectStep ⟨3, "id5", 13⟩ 0 selectedState
      = drawStep ⟨3, "id5", 13⟩ selectedState :=
  select_selected_is_draw ⟨3, "id5", 13⟩ 0 selectedState rfl

/-- C8: after the persistence effect writes the serialization of a non-empty
history, a fresh session initializing from that store adopts exactly the
same JSON payload, and that payload denotes the identical ordered entry
list. -/
theorem history_roundtrip (s : AppState) (hne : s.history ≠ []) :
    (persistEffect s).store = some (.parsed (encodeHistory s.history)) ∧
    initHistory (persistEffect s).store = encodeHistory s.history ∧
    decodeHistory (initHistory (persistEffect s).store) = some s.history := by
  refine ⟨rfl, rfl, ?_⟩
  simpa [initHistory] using decodeHistory_encodeHistory s.history

/-- C8 witness at a concrete one-entry history. -/
theorem history_roundtrip_witness :
    (persistEffect (initialState [drawEntry envA 0] none)).store
        = some (.parsed (encodeHistory (initialState [drawEntry envA 0] none).history)) ∧
    initHistory (persistEffect (initialState [drawEntry envA 0] none)).store
        = encodeHistory (initialState [drawEntry envA 0] none).history ∧
    decodeHistory (initHistory (persistEffect (initialState [drawEntry envA 0] none)).store)
        = some (initialState [drawEntry envA 0] none).history :=
  history_roundtrip (initialState [drawEntry envA 0] none) (by decide)

/-- A concrete session state holding one recorded draw, with the store in
sync with the in-memory history. -/
def historyState : AppState :=
  { selectedCard := none
    currentReward := none
    statusMessage := "You opened Card 1!"
    isDrawing := false
    isModalOpen := false
    history := [drawEntry envA 0]
    store := some (.parsed (encodeHistory [drawEntry envA 0])) }

/-- C1 counterexample: clearing the history from a one-entry state empties
the in-memory log, but the settled store holds the written empty array under
the key rather than having the key removed: the persistence effect fires on
the history change after handleClearHistory removed the key. -/
theorem clear_history_store_counterexample :
    (clearStep historyState).history = [] ∧
    (clearStep historyState).store = some (.parsed (.arr [])) ∧
    (clearStep historyState).store ≠ none :=
  ⟨rfl, rfl, fun h => Option.noConfusion h⟩

/-- C1 amended: clearHistory always empties the in-memory log and removes
the key during the handler, but the persistence effect then writes the
serialized empty list back, so the settled store holds the empty-array
payload, which still rehydrates to no entries recorded. -/
theorem clear_history_settled (s : AppState) :
    (handleClearHistory s).history = [] ∧
    (handleClearHistory s).store = none ∧
    (clearStep s).history = [] ∧
    (clearStep s).store = some (.parsed (encodeHistory [])) ∧
    decodeHistory (initHistory (clearStep s).store) = some [] :=
  ⟨rfl, rfl, rfl, rfl, rfl⟩

/-- C2 counterexample: the stored value 42 is valid JSON that is not shaped
as an array of HistoryEntry records; initialization adopts it unchanged via
the unchecked cast instead of yielding the empty History Log. -/
theorem init_malformed_counterexample :
    initHistory (some (.parsed (.num 42))) = .num 42 ∧
    Json.num 42 ≠ .arr [] ∧
    decodeHistory (initHistory (some (.parsed (.num 42)))) = none :=
  ⟨rfl, fun h => Json.noConfusion h, rfl⟩

/-- C2 amended: a missing key or a non-JSON string yields an empty History
Log without crashing, but any successfully parsed JSON value, whatever its
shape, is adopted as the initial log without validation. -/
theorem init_fallback_amended :
    initHistory none = .arr [] ∧
    (∀ s : String, initHistory (some (.malformed s)) = .arr []) ∧
    (∀ j : Json, initHistory (some (.parsed j)) = j) :=
  ⟨rfl, fun _ => rfl, fun _ => rfl⟩

/-- An entry mint used to build an oversized stored history. -/
def mkEntry (n : Nat) : HistoryEntry :=
  { id := toString n
    cardNumber := 1
    rewardTitle := "Devsmith Mug"
    rewardIcon := "☕️"
    timestamp := n }

/-- Eleven well-formed history entries. -/
def elevenEntries : List HistoryEntry := (List.range 11).map mkEntry

/-- A store whose key holds a valid JSON array of eleven entries. -/
def overfullStore : Option Stored := some (.parsed (encodeHistory elevenEntries))

/-- C3 counterexample: rehydrating from a store holding eleven well-formed
entries yields a reachable mounted state whose History Log has length 11,
exceeding the cap of 10: the initializer adopts the stored list without
truncation. -/
theorem history_cap_counterexample :
    Reaches (persistEffect (initialState elevenEntries overfullStore)) ∧
    (persistEffect (initialState elevenEntries overfullStore)).history.length = 11 ∧
    ¬ (persistEffect (initialState elevenEntries overfullStore)).history.length ≤ 10 := by
  refine ⟨?_, rfl, by decide⟩
  exact Reaches.mount overfullStore elevenEntries
    (by simpa [overfullStore, initHistory] using
      decodeHistory_encodeHistory elevenEntries)

/-- C3 amended: every operation preserves the cap of 10 when it already
holds (draw truncates the prepended list to HISTORY_LIMIT, clear empties the
log, select and close never lengthen it), and each draw with a selection
keeps the new entry plus the 9 most recent old ones, dropping the oldest;
initialization, however, adopts the stored entries without truncation. -/
theorem history_cap_preserved (s : AppState) (hlen : s.history.length ≤ 10) :
    (∀ env : DrawEnv, (drawStep env s).history.length ≤ 10) ∧
    (∀ (env : DrawEnv) (i : Nat), (selectStep env i s).history.length ≤ 10) ∧
    (closeStep s).history.length ≤ 10 ∧
    (clearStep s).history.length ≤ 10 ∧
    (∀ (env : DrawEnv) (i : Nat), s.selectedCard = some i →
      (drawStep env s).history = drawEntry env i :: s.history.take 9) := by
  have hdraw : ∀ env : DrawEnv, (drawStep env s).history.length ≤ 10 := by
    intro env
    cases hsel : s.selectedCard with
    | none => simpa [drawStep, handleDraw, hsel] using hlen
    | some k =>
        simp [drawStep, handleDraw, persistEffect, hsel, HISTORY_LIMIT,
          List.length_take]
  refine ⟨hdraw, ?_, hlen, by simp [clearStep, persistEffect, handleClearHistory], ?_⟩
  · intro env i
    by_cases hsel : s.selectedCard = some i
    · simpa [selectStep, handleCardSelect, drawStep, hsel] using hdraw env
    · simpa [selectStep, handleCardSelect, hsel] using hlen
  · intro env i hsel
    simp [drawStep, handleDraw, persistEffect, hsel, HISTORY_LIMIT,
      show (10 : Nat) = 9 + 1 from rfl, List.take_succ_cons]

/-- C3 witness at a concrete capped state. -/
theorem history_cap_preserved_witness :
    (∀ env : DrawEnv, (drawStep env selectedState).history.length ≤ 10) ∧
    (∀ (env : DrawEnv) (i : Nat),
      (selectStep env i selectedState).history.length ≤ 10) ∧
    (closeStep selectedState).history.length ≤ 10 ∧
    (clearStep selectedState).history.length ≤ 10 ∧
    (∀ (env : DrawEnv) (i : Nat), selectedState.selectedCard = some i →
      (drawStep env selectedState).history
        = drawEntry env i :: selectedState.history.take 9) :=
  history_cap_preserved selectedState (by decide)
